import Mathlib

/-!
Verification of the OMR (optical mark recognition) decoding service against
its design specification.

The service has two pipelines:
* `app_v2.py` — grid strategy: slice a detected (or fallback) grid rectangle
  into question rows and five answer cells, score each cell by pixel darkness,
  and decide the answer per row.
* `app.py` — remote-classifier strategy: slice the sheet into per-question row
  images and ask an external classifier per row.

Images are embedded as row-major lists of pixel intensity values
(`List (List Nat)`); a pixel is "marked" when its value is positive, matching
the inverted-binary convention of the source (`bubble_region > 0`).  Fill
scores, which the source computes in floating point, are embedded as exact
rationals.  Library image operations of OpenCV that the pipelines merely pass
through (grayscale conversion, Otsu thresholding, contour detection) are
abstracted as function parameters; every claim is proved for all of their
possible outputs.  Python slice semantics `a[i:j]` (clamping, empty when
`j ≤ i`) is mirrored by `drop`/`take`.
-/

abbrev Image := List (List Nat)

/-- Row slice `img[a:b]` of a row-major image (Python slice semantics). -/
def sliceRows (img : Image) (a b : Nat) : Image :=
  (img.drop a).take (b - a)

/-- Column slice `img[:, a:b]` of a row-major image. -/
def sliceCols (img : Image) (a b : Nat) : Image :=
  img.map (fun r => (r.drop a).take (b - a))

/-- Rectangular sub-image `img[y:y+h, x:x+w]`. -/
def sliceRegion (img : Image) (y h x w : Nat) : Image :=
  sliceCols (sliceRows img y (y + h)) x (x + w)

/-- `region.size` of numpy: total number of pixels. -/
def imsize (img : Image) : Nat :=
  (img.map List.length).sum

/-- Number of marked pixels: `np.sum(region > 0)`. -/
def countDark (img : Image) : Nat :=
  (img.map (fun r => r.countP (fun p => decide (0 < p)))).sum

/-- Fill scorer of `extract_answers_from_grid` (app_v2.py lines 164-170):
`darkness = np.sum(bubble_region > 0) / bubble_region.size`, with a
zero-size region scored `0.0` instead of dividing. -/
def fillScore (region : Image) : ℚ :=
  if imsize region = 0 then 0
  else (countDark region : ℚ) / (imsize region : ℚ)

/-- The human-readable `notes` strings the pipelines emit, as a data type
(the grid pipeline formats the density to two decimals inside the string;
the constructor carries the exact density instead). -/
inductive Note where
  | couldNotExtractRow : Note
  | noAnswerDetected : Note
  | density (d : ℚ) (multipleMarks : Bool) : Note
  | rowByRowAI : Note
  | aiError (status : Nat) : Note
  | errorMsg (msg : String) : Note
deriving DecidableEq, Repr

/-- One per-question verdict dictionary.  The first branch of
`extract_answers_from_grid` ("Could not extract row") emits a dict without
an `ambiguous` key, hence `ambiguous : Option Bool`. -/
structure Verdict where
  questionNumber : Nat
  selectedOption : String
  confidence : ℚ
  ambiguous : Option Bool
  notes : Note
deriving DecidableEq, Repr

/-- Python `max` on a list of rationals (the guarded uses below never reach
the empty case; `0` is an arbitrary value there). -/
def pymax : List ℚ → ℚ
  | [] => 0
  | a :: t => t.foldl max a

/-- Decision logic of `extract_answers_from_grid` (app_v2.py lines 172-196)
applied to the five slot densities of one row. -/
def decideRow (q : Nat) (densities : List ℚ) : Verdict :=
  if densities = [] ∨ pymax densities < 1/10 then
    { questionNumber := q, selectedOption := "", confidence := 0,
      ambiguous := some false, notes := Note.noAnswerDetected }
  else
    let max_density := pymax densities
    let selected_pos := densities.findIdx (fun d => decide (d = max_density)) + 1
    let dark_count := densities.countP (fun d => decide (max_density * (7/10) < d))
    let ambiguous := decide (1 < dark_count)
    { questionNumber := q,
      selectedOption := if ambiguous then "" else toString selected_pos,
      confidence := max_density,
      ambiguous := some ambiguous,
      notes := Note.density max_density ambiguous }

/-- A candidate grid block (`detect_answer_grid_regions` emits dicts with an
`area` key; the fallback block of `process_omr_sheet` has none). -/
structure Grid where
  x : Nat
  y : Nat
  w : Nat
  h : Nat
  area : Option ℚ
deriving DecidableEq, Repr

/-- Sort key of `max(grid_regions, key=...)` in app_v2.py line 223. -/
def gridKey (g : Grid) : ℚ :=
  match g.area with
  | some a => a
  | none => (g.w * g.h : ℚ)

/-- Python `max(l, key=gridKey)` for nonempty `l` (first maximum wins). -/
def maxByKey : List Grid → Grid
  | [] => ⟨0, 0, 0, 0, none⟩
  | g :: t => t.foldl (fun best x => if gridKey best < gridKey x then x else best) g

/-- Per-question body of the `for q in range(1, num_questions + 1)` loop of
`extract_answers_from_grid` (app_v2.py lines 130-196): locate the row slice,
score the five answer cells, and decide.  `int(w * 0.2)` is embedded as
`w * 2 / 10` in exact integer arithmetic. -/
def processQuestion (grid_thresh : Image) (w h row_height qps q : Nat) : Verdict :=
  let question_in_section := (q - 1) % qps
  let row_y0 := question_in_section * row_height
  let row_y := if h < row_y0 + row_height then h - row_height else row_y0
  let row_img := sliceRows grid_thresh row_y (row_y + row_height)
  if imsize row_img = 0 then
    { questionNumber := q, selectedOption := "", confidence := 0,
      ambiguous := none, notes := Note.couldNotExtractRow }
  else
    let answer_start := w * 2 / 10
    let answer_width := w - answer_start
    let bubble_width := answer_width / 5
    let densities := (List.range 5).map (fun pos =>
      fillScore (sliceCols row_img (answer_start + pos * bubble_width)
        (answer_start + pos * bubble_width + bubble_width)))
    decideRow q densities

/-- `extract_answers_from_grid(image, gray, grid, num_questions)` of
app_v2.py.  The Otsu binarization `cv2.threshold(..., THRESH_OTSU)` is
abstracted as the parameter `otsu`. -/
def extract_answers_from_grid (otsu : Image → Image) (_image gray : Image)
    (grid : Grid) (num_questions : Nat) : List Verdict :=
  let grid_img := sliceRegion gray grid.y grid.h grid.x grid.w
  let grid_thresh := otsu grid_img
  let estimated_rows_per_column := min num_questions 20
  let row_height := grid.h / estimated_rows_per_column
  let questions_per_section := min num_questions 20
  (List.range num_questions).map (fun q0 =>
    processQuestion grid_thresh grid.w grid.h row_height questions_per_section (q0 + 1))

/-- Sheet-level result dictionary of the grid pipeline. -/
structure V2SheetResult where
  answers : List Verdict
  totalDetected : Nat
  gridRegions : Nat
deriving DecidableEq, Repr

/-- `process_omr_sheet(image_url, num_questions)` of app_v2.py, after the
image has been downloaded and decoded.  `preprocess` abstracts
`preprocess_for_grid` (grayscale + adaptive threshold), `detect` abstracts
the contour search of `detect_answer_grid_regions`, and `otsu` the Otsu
binarization inside `extract_answers_from_grid`.  When `detect` yields no
region the fixed-fraction fallback crop is used (lines 214-220), with
`int(shape * 0.2)` and `int(shape * 0.7)` embedded as `* 2 / 10` and
`* 7 / 10`. -/
def process_omr_sheet_v2 (preprocess : Image → Image × Image)
    (detect : Image → Image → List Grid) (otsu : Image → Image)
    (image : Image) (num_questions : Nat) : V2SheetResult :=
  let gray := (preprocess image).1
  let thresh := (preprocess image).2
  let detected := detect image thresh
  let grid_regions :=
    if detected.isEmpty then
      [⟨0, image.length * 2 / 10, (image.headD []).length,
        image.length * 7 / 10, none⟩]
    else detected
  let main_grid := maxByKey grid_regions
  let results := extract_answers_from_grid otsu image gray main_grid num_questions
  { answers := results, totalDetected := results.length,
    gridRegions := grid_regions.length }

/-- `detect_answer_grid_bounds(image)` of app.py: fixed-fraction bounds of the
answer area.  `int(shape * f)` is embedded as exact integer arithmetic. -/
def detect_answer_grid_bounds (height width : Nat) : Nat × Nat × Nat × Nat :=
  let grid_start_y := height * 15 / 100
  let grid_end_y := height * 85 / 100
  let grid_start_x := width * 15 / 100
  let grid_end_x := width * 95 / 100
  (grid_start_x, grid_start_y, grid_end_x - grid_start_x, grid_end_y - grid_start_y)

/-- `extract_question_rows(image, num_questions)` of app.py: one cropped row
image per question, with a blank `np.zeros((50, width, 3))` fallback when the
crop is empty.  `max(0, row_y - padding)` coincides with truncated `Nat`
subtraction. -/
def extract_question_rows (image : Image) (num_questions : Nat) : List Image :=
  let bounds := detect_answer_grid_bounds image.length (image.headD []).length
  let x := bounds.1
  let y := bounds.2.1
  let width := bounds.2.2.1
  let height := bounds.2.2.2
  let grid_image := sliceRegion image y height x width
  let rows_per_column := min num_questions 20
  let row_height := height / rows_per_column
  (List.range num_questions).map (fun q =>
    let column_idx := q / rows_per_column
    let row_in_column := q % rows_per_column
    let column_width := width / 2
    let col_x := column_idx * column_width
    let row_y := row_in_column * row_height
    let padding := row_height * 1 / 10
    let row_y_start := row_y - padding
    let row_y_end := min grid_image.length (row_y + row_height + padding)
    let row_x_start := col_x
    let row_x_end := min ((grid_image.headD []).length) (col_x + column_width)
    let row_img := sliceCols (sliceRows grid_image row_y_start row_y_end)
      row_x_start row_x_end
    if 0 < imsize row_img then row_img
    else List.replicate 50 (List.replicate width 0))

/-- Outcome of one remote-classifier call for one row (app.py lines 155-215):
an HTTP response whose body either parses to the optional `selectedOption`
and `confidence` fields or fails to parse (`json.loads` raising), or an
exception anywhere in the call (network error, timeout, ...). -/
inductive RemoteOutcome where
  | response (status : Nat)
      (body : Except String (Option String × Option ℚ)) : RemoteOutcome
  | exception (msg : String) : RemoteOutcome
deriving Repr

/-- `analyze_row_with_ai(row_image, question_number, api_key)` of app.py,
with the network call abstracted into its `RemoteOutcome`.  A parse failure
inside the 200 branch is caught by the same `except` as any other exception
and yields the `Error: ...` note. -/
def analyze_row_with_ai (question_number : Nat) (outcome : RemoteOutcome) :
    Verdict :=
  match outcome with
  | .response status body =>
    if status = 200 then
      match body with
      | .ok (selected, confidence) =>
        { questionNumber := question_number,
          selectedOption := selected.getD "",
          confidence := confidence.getD (8/10),
          ambiguous := some false, notes := Note.rowByRowAI }
      | .error msg =>
        { questionNumber := question_number, selectedOption := "",
          confidence := 0, ambiguous := some false,
          notes := Note.errorMsg msg }
    else
      { questionNumber := question_number, selectedOption := "",
        confidence := 0, ambiguous := some false,
        notes := Note.aiError status }
  | .exception msg =>
    { questionNumber := question_number, selectedOption := "",
      confidence := 0, ambiguous := some false,
      notes := Note.errorMsg msg }

/-- Sheet-level result dictionary of the remote-classifier pipeline. -/
structure AiSheetResult where
  answers : List Verdict
  totalDetected : Nat
  rowsDetected : Nat
deriving DecidableEq, Repr

/-- `process_omr_sheet(image_url, num_questions)` of app.py, after the image
has been downloaded and decoded.  Each question's remote call outcome is
given by `oracle` (a function of the 1-based question number); the thread
pool's completion-order collection is followed by the source's
`results.sort(key=lambda x: x['questionNumber'])`, embedded as a stable merge
sort on that key.  A worker whose `future.result()` raises is absorbed into
`RemoteOutcome.exception`, whose verdict coincides with the orchestrator's
own `except` branch. -/
def process_omr_sheet_ai (image : Image) (num_questions : Nat)
    (oracle : Nat → RemoteOutcome) : AiSheetResult :=
  let question_rows := extract_question_rows image num_questions
  let results := question_rows.enum.map
    (fun p => analyze_row_with_ai (p.1 + 1) (oracle (p.1 + 1)))
  let sorted := results.mergeSort
    (fun a b => a.questionNumber ≤ b.questionNumber)
  { answers := sorted, totalDetected := sorted.length,
    rowsDetected := num_questions }

/-! ### Auxiliary lemmas about `pymax`, counting, and the scorer -/

theorem foldl_max_le_iff (t : List ℚ) (b c : ℚ) :
    t.foldl max b ≤ c ↔ b ≤ c ∧ ∀ x ∈ t, x ≤ c := by
  induction t generalizing b with
  | nil => simp
  | cons a t ih =>
    rw [List.foldl_cons, ih]
    simp only [max_le_iff, List.mem_cons]
    constructor
    · rintro ⟨⟨hb, ha⟩, h⟩
      exact ⟨hb, fun x hx => hx.elim (fun e => e ▸ ha) (h x)⟩
    · rintro ⟨hb, h⟩
      exact ⟨⟨hb, h a (Or.inl rfl)⟩, fun x hx => h x (Or.inr hx)⟩

theorem foldl_max_mem (t : List ℚ) (b : ℚ) :
    t.foldl max b = b ∨ t.foldl max b ∈ t := by
  induction t generalizing b with
  | nil => exact Or.inl rfl
  | cons a t ih =>
    rw [List.foldl_cons]
    rcases ih (max b a) with h | h
    · rcases max_choice b a with hc | hc
      · exact Or.inl (h.trans hc)
      · exact Or.inr (List.mem_cons.mpr (Or.inl (h.trans hc)))
    · exact Or.inr (List.mem_cons.mpr (Or.inr h))

theorem le_pymax_of_mem {l : List ℚ} {a : ℚ} (h : a ∈ l) : a ≤ pymax l := by
  cases l with
  | nil => cases h
  | cons b t =>
    rw [pymax]
    have hiff := foldl_max_le_iff t b (t.foldl max b)
    rcases List.mem_cons.mp h with rfl | h
    · exact (hiff.mp le_rfl).1
    · exact (hiff.mp le_rfl).2 a h

theorem pymax_mem {l : List ℚ} (h : l ≠ []) : pymax l ∈ l := by
  cases l with
  | nil => exact absurd rfl h
  | cons b t =>
    rw [pymax]
    rcases foldl_max_mem t b with h' | h'
    · rw [h']; exact List.mem_cons_self b t
    · exact List.mem_cons.mpr (Or.inr h')

theorem two_le_countP {α : Type} {p : α → Bool} :
    ∀ {l : List α} {i j : Nat} {a b : α}, i < j →
      l.get? i = some a → l.get? j = some b → p a → p b →
      2 ≤ l.countP p := by
  intro l
  induction l with
  | nil => intro i j a b _ ha; simp at ha
  | cons c t ih =>
    intro i j a b hij ha hb hpa hpb
    cases j with
    | zero => omega
    | succ j' =>
      rw [List.get?_cons_succ] at hb
      cases i with
      | zero =>
        rw [List.get?_cons_zero] at ha
        injection ha with ha
        subst ha
        have hbmem : b ∈ t := List.get?_mem hb
        have hpos : 0 < t.countP p := List.countP_pos_iff.mpr ⟨b, hbmem, hpb⟩
        rw [List.countP_cons]
        simp only [hpa, if_true]
        omega
      | succ i' =>
        rw [List.get?_cons_succ] at ha
        have := ih (by omega : i' < j') ha hb hpa hpb
        rw [List.countP_cons]
        omega

theorem countDark_le_imsize (img : Image) : countDark img ≤ imsize img := by
  rw [countDark, imsize]
  apply List.sum_le_sum
  intro r _
  exact List.countP_le_length _

/-- Unfolding of `decideRow` when the maximal density clears the `0.1`
floor. -/
theorem decideRow_eq_of_floor {q : Nat} {densities : List ℚ}
    (h : 1/10 ≤ pymax densities) :
    decideRow q densities =
      { questionNumber := q,
        selectedOption :=
          if decide (1 < densities.countP
              (fun d => decide (pymax densities * (7/10) < d))) then ""
          else toString
            (densities.findIdx (fun d => decide (d = pymax densities)) + 1),
        confidence := pymax densities,
        ambiguous := some (decide (1 < densities.countP
          (fun d => decide (pymax densities * (7/10) < d)))),
        notes := Note.density (pymax densities) (decide (1 < densities.countP
          (fun d => decide (pymax densities * (7/10) < d)))) } := by
  rw [decideRow, if_neg]
  rintro (rfl | hlt)
  · rw [pymax] at h; norm_num at h
  · exact absurd h (not_le.mpr hlt)

/-- Changing only the question number changes only the `questionNumber`
field of the decided verdict. -/
theorem decideRow_shift (q q' : Nat) (densities : List ℚ) :
    decideRow q' densities =
      { decideRow q densities with questionNumber := q' } := by
  rw [decideRow, decideRow]
  by_cases hc : densities = [] ∨ pymax densities < 1/10
  · rw [if_pos hc, if_pos hc]
  · rw [if_neg hc, if_neg hc]

/-- If a decided verdict is flagged ambiguous then no option is selected. -/
theorem decideRow_ambiguous_empty (q : Nat) (densities : List ℚ)
    (h : (decideRow q densities).ambiguous = some true) :
    (decideRow q densities).selectedOption = "" := by
  rw [decideRow] at h ⊢
  by_cases hc : densities = [] ∨ pymax densities < 1/10
  · rw [if_pos hc] at h
    simp at h
  · rw [if_neg hc] at h ⊢
    simp only [Option.some.injEq] at h
    simp [h]

/-- If a grid-pipeline verdict is flagged ambiguous then no option is
selected. -/
theorem processQuestion_ambiguous_empty (gt : Image) (w h rh qps q : Nat)
    (hamb : (processQuestion gt w h rh qps q).ambiguous = some true) :
    (processQuestion gt w h rh qps q).selectedOption = "" := by
  rw [processQuestion] at hamb ⊢
  by_cases hc :
      imsize (sliceRows gt
        (if h < (q - 1) % qps * rh + rh then h - rh else (q - 1) % qps * rh)
        ((if h < (q - 1) % qps * rh + rh then h - rh else (q - 1) % qps * rh) + rh)) = 0
  · rw [if_pos hc] at hamb
    simp at hamb
  · rw [if_neg hc] at hamb ⊢
    exact decideRow_ambiguous_empty _ _ hamb

theorem length_extract_question_rows (image : Image) (num_questions : Nat) :
    (extract_question_rows image num_questions).length = num_questions := by
  simp [extract_question_rows]

/-- Every verdict of `analyze_row_with_ai` carries its question number. -/
theorem analyze_questionNumber (n : Nat) (o : RemoteOutcome) :
    (analyze_row_with_ai n o).questionNumber = n := by
  cases o with
  | response status body =>
    cases body with
    | ok p =>
      obtain ⟨s, c⟩ := p
      by_cases hs : status = 200 <;> simp [analyze_row_with_ai, hs]
    | error m =>
      by_cases hs : status = 200 <;> simp [analyze_row_with_ai, hs]
  | exception m => rfl

/-- The remote-classifier pipeline never flags a verdict ambiguous. -/
theorem analyze_ambiguous_false (n : Nat) (o : RemoteOutcome) :
    (analyze_row_with_ai n o).ambiguous = some false := by
  cases o with
  | response status body =>
    cases body with
    | ok p =>
      obtain ⟨s, c⟩ := p
      by_cases hs : status = 200 <;> simp [analyze_row_with_ai, hs]
    | error m =>
      by_cases hs : status = 200 <;> simp [analyze_row_with_ai, hs]
  | exception m => rfl

/-- The per-row verdicts of the remote pipeline, indexed by question. -/
theorem ai_answers_eq (image : Image) (num_questions : Nat)
    (oracle : Nat → RemoteOutcome) :
    (process_omr_sheet_ai image num_questions oracle).answers =
      (List.range num_questions).map
        (fun i => analyze_row_with_ai (i + 1) (oracle (i + 1))) := by
  rw [process_omr_sheet_ai]
  have h1 : (extract_question_rows image num_questions).enum.map
      (fun p => analyze_row_with_ai (p.1 + 1) (oracle (p.1 + 1))) =
      ((extract_question_rows image num_questions).enum.map Prod.fst).map
        (fun i => analyze_row_with_ai (i + 1) (oracle (i + 1))) := by
    rw [List.map_map]
    rfl
  simp only [h1, List.enum_map_fst, length_extract_question_rows]
  apply List.mergeSort_of_sorted
  apply List.pairwise_map.mpr
  apply List.Pairwise.imp ?_ (List.sorted_lt_range num_questions)
  intro a b hab
  simp only [analyze_questionNumber, decide_eq_true_eq]
  omega

theorem ai_answers_get (image : Image) (num_questions : Nat)
    (oracle : Nat → RemoteOutcome) (j : Nat) (hj : j < num_questions) :
    (process_omr_sheet_ai image num_questions oracle).answers.get? j =
      some (analyze_row_with_ai (j + 1) (oracle (j + 1))) := by
  rw [ai_answers_eq, List.get?_map, List.get?_range hj]
  rfl

/-! ### Claim theorems -/

/-- C2: for every valid input (decodable image, positive expected question
count), both pipelines return a sheet result whose answers list has length
exactly the expected question count, regardless of how many rows or regions
were located (`detect` and `oracle` are universally quantified). -/
theorem sheet_answers_length (preprocess : Image → Image × Image)
    (detect : Image → Image → List Grid) (otsu : Image → Image)
    (image image' : Image) (num_questions : Nat) (oracle : Nat → RemoteOutcome)
    (hpos : 0 < num_questions) :
    (process_omr_sheet_v2 preprocess detect otsu image num_questions).answers.length
        = num_questions ∧
      (process_omr_sheet_ai image' num_questions oracle).answers.length
        = num_questions := by
  constructor
  · simp [process_omr_sheet_v2, extract_answers_from_grid]
  · rw [ai_answers_eq]
    simp

/-- Witness for C2 at a concrete input. -/
theorem sheet_answers_length_witness :
    (process_omr_sheet_v2 (fun i => (i, i)) (fun _ _ => []) id [[0]] 3).answers.length
        = 3 ∧
      (process_omr_sheet_ai [[0]] 3 (fun _ => .exception "down")).answers.length
        = 3 :=
  sheet_answers_length (fun i => (i, i)) (fun _ _ => []) id [[0]] [[0]] 3
    (fun _ => .exception "down") (by norm_num)

/-- C3: grid-strategy tie rule.  If the maximal slot score clears the `0.1`
floor and two or more slots score above `0.7 ×` the maximum, the verdict is
ambiguous with no selected option. -/
theorem grid_tie_ambiguous (q : Nat) (densities : List ℚ)
    (hfloor : 1/10 ≤ pymax densities)
    (htwo : 2 ≤ densities.countP
      (fun d => decide (pymax densities * (7/10) < d))) :
    (decideRow q densities).ambiguous = some true ∧
      (decideRow q densities).selectedOption = "" := by
  rw [decideRow_eq_of_floor hfloor]
  have hd : decide (1 < densities.countP
      (fun d => decide (pymax densities * (7/10) < d))) = true := by
    simp only [decide_eq_true_eq]
    omega
  simp [hd]

/-- Witness for C3: exactly two slots with equal maximal scores above the
threshold yield an ambiguous verdict with no selected option. -/
theorem grid_tie_ambiguous_witness :
    (decideRow 1 [9/10, 9/10, 0, 0, 0]).ambiguous = some true ∧
      (decideRow 1 [9/10, 9/10, 0, 0, 0]).selectedOption = "" :=
  grid_tie_ambiguous 1 [9/10, 9/10, 0, 0, 0]
    (by norm_num [pymax])
    (by norm_num [pymax, List.countP_cons])

/-- C5: grid-strategy no-answer rule.  A row whose every slot scores below
the `0.1` floor yields an empty non-ambiguous verdict with confidence `0`
and the "No answer detected" note. -/
theorem grid_no_answer (q : Nat) (densities : List ℚ)
    (hlow : ∀ d ∈ densities, d < 1/10) :
    decideRow q densities =
      { questionNumber := q, selectedOption := "", confidence := 0,
        ambiguous := some false, notes := Note.noAnswerDetected } := by
  rw [decideRow, if_pos]
  rcases eq_or_ne densities [] with rfl | hne
  · exact Or.inl rfl
  · exact Or.inr (hlow _ (pymax_mem hne))

/-- Witness for C5: the all-zero row. -/
theorem grid_no_answer_witness :
    decideRow 1 [0, 0, 0, 0, 0] =
      { questionNumber := 1, selectedOption := "", confidence := 0,
        ambiguous := some false, notes := Note.noAnswerDetected } :=
  grid_no_answer 1 [0, 0, 0, 0, 0] (by norm_num)

/-- C6: the fill score is total and bounded: it lies in `[0, 1]` for every
region, and a degenerate (zero-area) region scores `0` instead of raising a
division error. -/
theorem fillScore_total_bounded (region : Image) :
    (0 ≤ fillScore region ∧ fillScore region ≤ 1) ∧
      (imsize region = 0 → fillScore region = 0) := by
  constructor
  · rw [fillScore]
    by_cases h : imsize region = 0
    · rw [if_pos h]
      norm_num
    · rw [if_neg h]
      have hpos : (0:ℚ) < (imsize region : ℚ) := by
        exact_mod_cast Nat.pos_of_ne_zero h
      constructor
      · positivity
      · rw [div_le_one hpos]
        exact_mod_cast countDark_le_imsize region
  · intro h
    rw [fillScore, if_pos h]

/-- Witness for C6 on the degenerate empty region. -/
theorem fillScore_total_bounded_witness :
    (0 ≤ fillScore [] ∧ fillScore [] ≤ 1) ∧ fillScore [] = 0 :=
  ⟨(fillScore_total_bounded []).1, (fillScore_total_bounded []).2 rfl⟩

/-- C4: grid-strategy single-answer rule.  If the maximal slot score clears
the `0.1` floor and exactly one slot (necessarily the maximum) scores above
`0.7 ×` the maximum, the verdict selects that slot's 1-based position, its
confidence is that slot's score, and it is not ambiguous. -/
theorem grid_single_answer (q : Nat) (densities : List ℚ) (i : Nat)
    (hfloor : 1/10 ≤ pymax densities)
    (hone : densities.countP
      (fun d => decide (pymax densities * (7/10) < d)) = 1)
    (hi : densities.get? i = some (pymax densities)) :
    (decideRow q densities).selectedOption = toString (i + 1) ∧
      (decideRow q densities).confidence = pymax densities ∧
      (decideRow q densities).ambiguous = some false := by
  have hmp : (0:ℚ) < pymax densities := lt_of_lt_of_le (by norm_num) hfloor
  have hself : pymax densities * (7/10) < pymax densities := by nlinarith
  have hilen : i < densities.length := by
    rcases List.get?_eq_some.mp hi with ⟨hl, _⟩
    exact hl
  have hival : densities[i] = pymax densities := by
    rcases List.get?_eq_some.mp hi with ⟨hl, hval⟩
    simpa using hval
  have hfind : densities.findIdx (fun d => decide (d = pymax densities)) = i := by
    rw [List.findIdx_eq hilen]
    constructor
    · simp [hival]
    · intro j hji
      by_contra hcon
      simp only [Bool.not_eq_false, decide_eq_true_eq] at hcon
      have hjget : densities.get? j = some (pymax densities) := by
        rw [List.get?_eq_some]
        exact ⟨Nat.lt_trans hji hilen, by simpa using hcon⟩
      have h2 := two_le_countP
        (p := fun d => decide (pymax densities * (7/10) < d)) hji hjget hi
        (by simp only [decide_eq_true_eq]; exact hself)
        (by simp only [decide_eq_true_eq]; exact hself)
      omega
  have hdark : ¬ (1 < densities.countP
      (fun d => decide (pymax densities * (7/10) < d))) := by omega
  rw [decideRow_eq_of_floor hfloor]
  simp [hdark, hfind]

/-- Witness for C4: a single filled third slot is selected with its score as
confidence. -/
theorem grid_single_answer_witness :
    (decideRow 1 [0, 0, 9/10, 0, 0]).selectedOption = toString (2 + 1) ∧
      (decideRow 1 [0, 0, 9/10, 0, 0]).confidence = pymax [0, 0, 9/10, 0, 0] ∧
      (decideRow 1 [0, 0, 9/10, 0, 0]).ambiguous = some false :=
  grid_single_answer 1 [0, 0, 9/10, 0, 0] 2
    (by norm_num [pymax])
    (by norm_num [pymax, List.countP_cons])
    (by norm_num [pymax])

/-- C9: monotonicity of confidence.  For a row with a single filled slot
(the maximal one, at index `i`), raising that slot's fill score while
holding the other slots fixed never decreases the verdict's confidence. -/
theorem single_slot_confidence_monotone (q : Nat) (densities : List ℚ)
    (i : Nat) (m m' : ℚ)
    (hi : densities.get? i = some m)
    (hm : m = pymax densities)
    (hfloor : 1/10 ≤ pymax densities)
    (hone : densities.countP
      (fun d => decide (pymax densities * (7/10) < d)) = 1)
    (hle : m ≤ m') :
    (decideRow q densities).confidence ≤
      (decideRow q (densities.set i m')).confidence := by
  have hilen : i < densities.length := by
    rcases List.get?_eq_some.mp hi with ⟨hl, _⟩
    exact hl
  have hmem' : m' ∈ densities.set i m' := List.mem_set densities i hilen m'
  have hmax' : m' ≤ pymax (densities.set i m') := le_pymax_of_mem hmem'
  have hchain : pymax densities ≤ pymax (densities.set i m') :=
    le_trans (hm ▸ hle) hmax'
  have hfloor' : 1/10 ≤ pymax (densities.set i m') := le_trans hfloor hchain
  rw [decideRow_eq_of_floor hfloor, decideRow_eq_of_floor hfloor']
  exact hchain

/-- Witness for C9: raising the single filled slot from `9/10` to `1`. -/
theorem single_slot_confidence_monotone_witness :
    (decideRow 1 [0, 0, 9/10, 0, 0]).confidence ≤
      (decideRow 1 ([0, 0, 9/10, 0, 0].set 2 1)).confidence :=
  single_slot_confidence_monotone 1 [0, 0, 9/10, 0, 0] 2 (9/10) 1
    (by norm_num [pymax])
    (by norm_num [pymax])
    (by norm_num [pymax])
    (by norm_num [pymax, List.countP_cons])
    (by norm_num)

/-- C7: grid-strategy fallback.  When the contour search finds no candidate
grid region, the orchestrator uses the fixed-fraction crop (top 20 % skipped,
70 % of the height kept, full width) as the single grid block and still
produces a complete sheet result. -/
theorem grid_fallback_crop (preprocess : Image → Image × Image)
    (detect : Image → Image → List Grid) (otsu : Image → Image)
    (image : Image) (num_questions : Nat)
    (hnone : detect image (preprocess image).2 = []) :
    process_omr_sheet_v2 preprocess detect otsu image num_questions =
      { answers := extract_answers_from_grid otsu image (preprocess image).1
          ⟨0, image.length * 2 / 10, (image.headD []).length,
            image.length * 7 / 10, none⟩ num_questions,
        totalDetected := num_questions,
        gridRegions := 1 } ∧
      (process_omr_sheet_v2 preprocess detect otsu image
        num_questions).answers.length = num_questions := by
  have hmain : process_omr_sheet_v2 preprocess detect otsu image num_questions =
      { answers := extract_answers_from_grid otsu image (preprocess image).1
          ⟨0, image.length * 2 / 10, (image.headD []).length,
            image.length * 7 / 10, none⟩ num_questions,
        totalDetected := num_questions,
        gridRegions := 1 } := by
    rw [process_omr_sheet_v2]
    rw [hnone]
    simp only [List.isEmpty_nil, if_true, maxByKey, List.foldl_nil,
      List.length_singleton]
    simp [extract_answers_from_grid]
  refine ⟨hmain, ?_⟩
  rw [hmain]
  simp [extract_answers_from_grid]

/-- Witness for C7 with a contour search that returns no candidates. -/
theorem grid_fallback_crop_witness :
    process_omr_sheet_v2 (fun i => (i, i)) (fun _ _ => []) id [[0]] 1 =
      { answers := extract_answers_from_grid id [[0]] [[0]]
          ⟨0, 0, 1, 0, none⟩ 1,
        totalDetected := 1,
        gridRegions := 1 } ∧
      (process_omr_sheet_v2 (fun i => (i, i)) (fun _ _ => []) id
        [[0]] 1).answers.length = 1 :=
  grid_fallback_crop (fun i => (i, i)) (fun _ _ => []) id [[0]] 1 rfl

/-- C8: remote-classifier failure isolation.  A non-200 response, a
non-parseable response, or an exception in a row's remote call produces for
that question the empty verdict with confidence `0` and a note carrying the
failure reason; and the verdict of each question depends only on that
question's own call outcome (`oracle (j + 1)`), so failing rows never affect
sibling rows. -/
theorem remote_failure_isolation (image : Image) (num_questions : Nat)
    (oracle : Nat → RemoteOutcome) (j qn status : Nat)
    (body : Except String (Option String × Option ℚ)) (msg : String)
    (hj : j < num_questions) (hstatus : status ≠ 200) :
    ((process_omr_sheet_ai image num_questions oracle).answers.get? j =
        some (analyze_row_with_ai (j + 1) (oracle (j + 1)))) ∧
      analyze_row_with_ai qn (.response status body) =
        { questionNumber := qn, selectedOption := "", confidence := 0,
          ambiguous := some false, notes := Note.aiError status } ∧
      analyze_row_with_ai qn (.response 200 (.error msg)) =
        { questionNumber := qn, selectedOption := "", confidence := 0,
          ambiguous := some false, notes := Note.errorMsg msg } ∧
      analyze_row_with_ai qn (.exception msg) =
        { questionNumber := qn, selectedOption := "", confidence := 0,
          ambiguous := some false, notes := Note.errorMsg msg } := by
  refine ⟨ai_answers_get image num_questions oracle j hj, ?_, rfl, rfl⟩
  cases body with
  | ok p =>
    obtain ⟨s, c⟩ := p
    simp [analyze_row_with_ai, hstatus]
  | error m =>
    simp [analyze_row_with_ai, hstatus]

/-- Witness for C8 with a 500 response on the only question. -/
theorem remote_failure_isolation_witness :
    ((process_omr_sheet_ai [[0]] 1
        (fun _ => .response 500 (.error "bad json"))).answers.get? 0 =
      some (analyze_row_with_ai 1 (.response 500 (.error "bad json")))) ∧
      analyze_row_with_ai 7 (.response 500 (.error "bad json")) =
        { questionNumber := 7, selectedOption := "", confidence := 0,
          ambiguous := some false, notes := Note.aiError 500 } ∧
      analyze_row_with_ai 7 (.response 200 (.error "bad json")) =
        { questionNumber := 7, selectedOption := "", confidence := 0,
          ambiguous := some false, notes := Note.errorMsg "bad json" } ∧
      analyze_row_with_ai 7 (.exception "bad json") =
        { questionNumber := 7, selectedOption := "", confidence := 0,
          ambiguous := some false, notes := Note.errorMsg "bad json" } :=
  remote_failure_isolation [[0]] 1 (fun _ => .response 500 (.error "bad json"))
    0 7 500 (.error "bad json") "bad json" (by norm_num) (by norm_num)

/-- Two question numbers with the same in-section offset receive grid
verdicts that agree in everything but the question number: the computed
section index is never used in the row extraction. -/
theorem processQuestion_shift (gt : Image) (w h rh qps q q' : Nat)
    (hmod : (q - 1) % qps = (q' - 1) % qps) :
    processQuestion gt w h rh qps q' =
      { processQuestion gt w h rh qps q with questionNumber := q' } := by
  rw [processQuestion, processQuestion, ← hmod]
  by_cases hc : imsize (sliceRows gt
      (if h < (q - 1) % qps * rh + rh then h - rh else (q - 1) % qps * rh)
      ((if h < (q - 1) % qps * rh + rh then h - rh else (q - 1) % qps * rh) + rh)) = 0
  · rw [if_pos hc, if_pos hc]
  · rw [if_neg hc, if_neg hc]
    exact decideRow_shift q q' _

/-- C10: in the grid strategy the section/column index is computed but never
used, so when more than 20 questions are requested, questions `q` and
`q + 20` receive verdicts identical in selected option, confidence,
ambiguity flag and note, differing only in the question number. -/
theorem grid_column_blind (otsu : Image → Image) (image gray : Image)
    (grid : Grid) (num_questions q : Nat) (v : Verdict)
    (h20 : 20 < num_questions) (hq1 : 1 ≤ q) (hq : q + 20 ≤ num_questions)
    (hv : (extract_answers_from_grid otsu image gray grid
        num_questions).get? (q - 1) = some v) :
    (extract_answers_from_grid otsu image gray grid
        num_questions).get? (q + 19) =
      some { v with questionNumber := q + 20 } := by
  have hqps : min num_questions 20 = 20 := min_eq_right (le_of_lt h20)
  rw [extract_answers_from_grid] at hv ⊢
  rw [List.get?_map, List.get?_range (by omega : q - 1 < num_questions),
    Option.map_some', hqps] at hv
  rw [List.get?_map, List.get?_range (by omega : q + 19 < num_questions),
    Option.map_some', hqps]
  have hv' := Option.some.inj hv
  rw [← hv']
  rw [processQuestion_shift _ _ _ _ _ (q - 1 + 1) (q + 19 + 1)
    (by omega : (q - 1 + 1 - 1) % 20 = (q + 19 + 1 - 1) % 20)]

/-- Witness for C10: on an empty image with 21 questions, questions 1 and 21
get the same verdict apart from the question number. -/
theorem grid_column_blind_witness :
    (extract_answers_from_grid id [] [] ⟨0, 0, 0, 0, none⟩ 21).get? 20 =
      some { questionNumber := 21, selectedOption := "", confidence := 0,
             ambiguous := none, notes := Note.couldNotExtractRow } :=
  grid_column_blind id [] [] ⟨0, 0, 0, 0, none⟩ 21 1
    { questionNumber := 1, selectedOption := "", confidence := 0,
      ambiguous := none, notes := Note.couldNotExtractRow }
    (by norm_num) (by norm_num) (by norm_num)
    (by simp [extract_answers_from_grid, processQuestion, sliceRows,
      sliceRegion, sliceCols, imsize])

/-- A one-row test image 10 pixels wide with answer slots 1 and 3 (columns 2
and 4) marked: both cells score `1.0`, producing an ambiguous verdict. -/
def exImage : Image := [[0, 0, 1, 0, 1, 0, 0, 0, 0, 0]]

/-- A contour search that reports the whole `exImage` as one grid block. -/
def exDetect : Image → Image → List Grid := fun _ _ => [⟨0, 0, 10, 1, none⟩]

/-- A trivial preprocessing stage for the test image (already binary). -/
def exPre : Image → Image × Image := fun i => (i, i)

/-- The ambiguous verdict the grid pipeline produces on `exImage`. -/
def exVerdict : Verdict :=
  { questionNumber := 1, selectedOption := "", confidence := 1,
    ambiguous := some true, notes := Note.density 1 true }

/-- C1 counterexample: the grid pipeline emits an ambiguous verdict whose
confidence is the maximal density (`1.0` here), not `0.0`, so
"ambiguous implies confidence == 0.0" fails on the code. -/
theorem ambiguous_zero_confidence_cex :
    ¬ (∀ v ∈ (process_omr_sheet_v2 exPre exDetect id exImage 1).answers,
        v.ambiguous = some true →
          v.selectedOption = "" ∧ v.confidence = 0) := by
  intro hall
  have hmem : exVerdict ∈
      (process_omr_sheet_v2 exPre exDetect id exImage 1).answers := by
    norm_num [process_omr_sheet_v2, exPre, exDetect, exImage, exVerdict,
      maxByKey, gridKey, extract_answers_from_grid, processQuestion,
      decideRow, fillScore, sliceRows, sliceCols, sliceRegion, imsize,
      countDark, pymax, List.range_succ]
    simp
  have hzero := (hall exVerdict hmem rfl).2
  rw [exVerdict] at hzero
  norm_num at hzero

/-- C1 amended: in both pipelines an ambiguous verdict never selects an
option (`ambiguous == true` implies `selectedOption` absent); the remote
pipeline in fact never flags ambiguity at all.  The confidence of an
ambiguous grid verdict, however, equals the maximal slot density rather
than `0.0`. -/
theorem ambiguous_implies_no_selection (preprocess : Image → Image × Image)
    (detect : Image → Image → List Grid) (otsu : Image → Image)
    (image image' : Image) (num_questions num_questions' : Nat)
    (oracle : Nat → RemoteOutcome) (v v' : Verdict)
    (hv : v ∈ (process_omr_sheet_v2 preprocess detect otsu image
        num_questions).answers)
    (hamb : v.ambiguous = some true)
    (hv' : v' ∈ (process_omr_sheet_ai image' num_questions' oracle).answers) :
    v.selectedOption = "" ∧ v'.ambiguous = some false := by
  constructor
  · simp only [process_omr_sheet_v2, extract_answers_from_grid,
      List.mem_map] at hv
    obtain ⟨q0, _, rfl⟩ := hv
    exact processQuestion_ambiguous_empty _ _ _ _ _ _ hamb
  · rw [ai_answers_eq, List.mem_map] at hv'
    obtain ⟨i, _, rfl⟩ := hv'
    exact analyze_ambiguous_false _ _

/-- Witness for the amended C1, at the concrete ambiguous grid verdict and a
concrete remote-pipeline verdict. -/
theorem ambiguous_implies_no_selection_witness :
    exVerdict.selectedOption = "" ∧
      ({ questionNumber := 1, selectedOption := "", confidence := 0,
         ambiguous := some false, notes := Note.errorMsg "down" } :
        Verdict).ambiguous = some false :=
  ambiguous_implies_no_selection exPre exDetect id exImage [] 1 1
    (fun _ => .exception "down") exVerdict
    { questionNumber := 1, selectedOption := "", confidence := 0,
      ambiguous := some false, notes := Note.errorMsg "down" }
    (by
      norm_num [process_omr_sheet_v2, exPre, exDetect, exImage, exVerdict,
        maxByKey, gridKey, extract_answers_from_grid, processQuestion,
        decideRow, fillScore, sliceRows, sliceCols, sliceRegion, imsize,
        countDark, pymax, List.range_succ]
      simp)
    rfl
    (by
      rw [ai_answers_eq]
      simp [analyze_row_with_ai])
